import Mathlib

/-!
Shallow embedding of the TripSense AI front end (pages Index, PlanTrip, Trips,
Diary, Discover).  Each page handler is translated into a pure function from
the page's form state and the responses of the external collaborators (auth
provider, data store, recommendation function) to a record of the observable
effects it produces: the store requests it issues, the toasts it shows, the
navigation it performs and the local list it installs.  The external
collaborators themselves are inputs (an `Option` session user and
`Except`-valued call outcomes); where a claim needs the store's own semantics,
a store stub is modelled from the spec and marked as such.
-/

/-- A transient toast notification, success or error, with its message. -/
inductive Toast where
  | success : String → Toast
  | error : String → Toast
deriving DecidableEq

/-- A store List request: `from(table).select(asterisk).eq(user_id, uid).order(field, dir)`.
`eqUserId` is the user-identifier equality filter attached to the request. -/
structure ListQuery where
  table : String
  eqUserId : Option String
  orderField : String
  ascending : Bool
deriving DecidableEq

/-- A store Delete request: `from(table).delete().eq(id, x)`.  `eqUserId` records a
user-identifier equality filter; every delete in the source chains only
`.eq(id, x)`, so the handlers below always set it to `none`. -/
structure DeleteQuery where
  table : String
  eqId : String
  eqUserId : Option String
deriving DecidableEq

/-- What a page does when it mounts: whether it queries the session at all,
which List request (if any) it issues, and where (if anywhere) it navigates. -/
structure MountResult where
  sessionQueried : Bool
  listIssued : Option ListQuery
  navigatedTo : Option String
deriving DecidableEq

/-- A calendar date, the parsed meaning of a non-empty HTML date-input string
"YYYY-MM-DD"; the empty string is modelled as `none : Option CivilDate`. -/
structure CivilDate where
  year : Int
  month : Nat
  day : Nat
deriving DecidableEq

/-- Days since the Unix epoch of a civil date: the standard days-from-civil
algorithm, which is what `new Date("YYYY-MM-DD").getTime() / 86400000`
computes (date-only strings parse to UTC midnight).  The guarded divisions
are truncating, as in the reference algorithm. -/
def epochDays (dt : CivilDate) : Int :=
  let y : Int := if dt.month ≤ 2 then dt.year - 1 else dt.year
  let era : Int := (if 0 ≤ y then y else y - 399).tdiv 400
  let yoe : Int := y - era * 400
  let mp : Nat := if 2 < dt.month then dt.month - 3 else dt.month + 9
  let doy : Int := (((153 * mp + 2) / 5 : Nat) : Int) + (dt.day : Int) - 1
  let doe : Int := yoe * 365 + yoe.tdiv 4 - yoe.tdiv 100 + doy
  era * 146097 + doe - 719468

/-- Milliseconds since the Unix epoch of a parsed date-input value, as
JS `Date.getTime()` returns for a date-only string (UTC midnight). -/
def getTime (dt : CivilDate) : Int := epochDays dt * 86400000

/-- Ceiling division of integers: the value of JS `Math.ceil(a / b)` for
integers `a` and positive `b` (the quotients taken in the source are exact,
so the float division loses nothing). -/
def ceilDivInt (a b : Int) : Int := -((-a) / b)

/-- PlanTrip's `calculateDays`: 0 when either date input is empty, otherwise
`Math.ceil((end.getTime() - start.getTime()) / 86400000)`. -/
def calculateDays (startDate endDate : Option CivilDate) : Int :=
  match startDate, endDate with
  | some s, some e => ceilDivInt (getTime e - getTime s) 86400000
  | _, _ => 0

/-- Numeric value of a run of decimal digits. -/
def digitsVal (ds : List Char) : Nat :=
  ds.foldl (fun n c => 10 * n + (c.toNat - 48)) 0

/-- JS `parseFloat` on the decimal numerals the number input produces:
an optional sign, integer digits, and optional fractional digits after a
point; `none` models NaN (no digits at all). -/
def parseFloat (s : String) : Option ℚ :=
  let cs := s.toList
  let sign : ℚ := if cs.head? = some '-' then -1 else 1
  let cs := if cs.head? = some '-' ∨ cs.head? = some '+' then cs.tail else cs
  let intDig := cs.takeWhile Char.isDigit
  let rest := cs.drop intDig.length
  let fracDig := match rest with
    | '.' :: r => r.takeWhile Char.isDigit
    | _ => []
  if intDig.isEmpty ∧ fracDig.isEmpty then none
  else some (sign * ((digitsVal intDig : ℚ) + (digitsVal fracDig : ℚ) / 10 ^ fracDig.length))

/-- PlanTrip's form state (component state hooks). -/
structure PlanTripState where
  destination : String
  startDate : Option CivilDate
  endDate : Option CivilDate
  budget : String
  travelType : String
  selectedInterests : List String
  aiRecommendations : String
deriving DecidableEq

/-- Body sent to the `travel-recommendations` function. -/
structure RecPayload where
  destination : String
  budget : Option ℚ
  travelType : String
  interests : List String
  days : Int
deriving DecidableEq

/-- Observable effects of `handleGetRecommendations`: the function invocation
issued (at most one call site exists), the toasts, and the recommendation
text installed on success. -/
structure RecResult where
  invocation : Option RecPayload
  toasts : List Toast
  newRecommendations : Option String
deriving DecidableEq

/-- PlanTrip's `handleGetRecommendations`, as a function of the form state and
the external function's response (consulted only if the call is made). -/
def handleGetRecommendations (s : PlanTripState) (resp : Except String String) : RecResult :=
  if s.destination = "" ∨ s.budget = "" ∨ s.travelType = "" ∨ s.selectedInterests.length = 0 then
    { invocation := none, toasts := [Toast.error "Please fill in all fields"],
      newRecommendations := none }
  else
    let days := calculateDays s.startDate s.endDate
    if days ≤ 0 then
      { invocation := none, toasts := [Toast.error "End date must be after start date"],
        newRecommendations := none }
    else
      let payload : RecPayload :=
        { destination := s.destination, budget := parseFloat s.budget,
          travelType := s.travelType, interests := s.selectedInterests, days := days }
      match resp with
      | Except.ok recs =>
          { invocation := some payload,
            toasts := [Toast.success "AI recommendations generated!"],
            newRecommendations := some recs }
      | Except.error msg =>
          { invocation := some payload,
            toasts := [Toast.error (if msg = "" then "Failed to get recommendations" else msg)],
            newRecommendations := none }

/-- Row inserted into the `trips` table by `handleSaveTrip`. -/
structure TripInsert where
  user_id : String
  destination : String
  start_date : Option CivilDate
  end_date : Option CivilDate
  budget : Option ℚ
  travel_type : String
  notes : String
  status : String
deriving DecidableEq

/-- Observable effects of `handleSaveTrip`: the single insert it may issue,
its toasts and its navigation. -/
structure SaveResult where
  insertIssued : Option TripInsert
  toasts : List Toast
  navigatedTo : Option String
deriving DecidableEq

/-- PlanTrip's `handleSaveTrip`, as a function of the form state, the auth
provider's `getUser` answer, and the insert's outcome (consulted only if the
insert is issued).  A thrown "Not authenticated" lands in the same catch as a
store error and shows its message. -/
def handleSaveTrip (s : PlanTripState) (user : Option String)
    (insertOutcome : Except String Unit) : SaveResult :=
  if s.destination = "" ∨ s.startDate = none ∨ s.endDate = none ∨ s.budget = "" then
    { insertIssued := none, toasts := [Toast.error "Please fill in all required fields"],
      navigatedTo := none }
  else
    match user with
    | none =>
        { insertIssued := none, toasts := [Toast.error "Not authenticated"],
          navigatedTo := none }
    | some uid =>
        let row : TripInsert :=
          { user_id := uid, destination := s.destination, start_date := s.startDate,
            end_date := s.endDate, budget := parseFloat s.budget,
            travel_type := s.travelType, notes := s.aiRecommendations,
            status := "planned" }
        match insertOutcome with
        | Except.ok _ =>
            { insertIssued := some row,
              toasts := [Toast.success "Trip saved successfully!"],
              navigatedTo := some "/trips" }
        | Except.error msg =>
            { insertIssued := some row,
              toasts := [Toast.error (if msg = "" then "Failed to save trip" else msg)],
              navigatedTo := none }

/-- PlanTrip declares no mount effect at all (the component has no
`useEffect`): on mount it queries no session, issues no store request and
performs no navigation. -/
def PlanTrip.mount : MountResult :=
  { sessionQueried := false, listIssued := none, navigatedTo := none }

/-- A diary entry row as the Diary page reads it. -/
structure DiaryEntry where
  id : String
  title : String
  content : String
  entry_date : String
  location : String
  created_at : String
deriving DecidableEq

/-- Observable effects of a page's fetch function: the List request it issues
(none when the session guard redirects first), its navigation, its toasts and
the local list it installs on success. -/
structure FetchResult (α : Type) where
  listIssued : Option ListQuery
  navigatedTo : Option String
  toasts : List Toast
  finalList : Option (List α)
deriving DecidableEq

/-- The List request the Diary page builds:
`from(diary_entries).select(asterisk).eq(user_id, uid).order(entry_date, descending)`. -/
def diaryListQuery (uid : String) : ListQuery :=
  { table := "diary_entries", eqUserId := some uid, orderField := "entry_date",
    ascending := false }

/-- Diary's `fetchEntries`: `getUser`; if no user, navigate to /auth and stop;
otherwise issue the user-scoped List and install the rows (a null data payload
is already folded into the empty list). -/
def fetchEntries (user : Option String)
    (resp : Except String (List DiaryEntry)) : FetchResult DiaryEntry :=
  match user with
  | none =>
      { listIssued := none, navigatedTo := some "/auth", toasts := [], finalList := none }
  | some uid =>
      match resp with
      | Except.ok rows =>
          { listIssued := some (diaryListQuery uid), navigatedTo := none,
            toasts := [], finalList := some rows }
      | Except.error _ =>
          { listIssued := some (diaryListQuery uid), navigatedTo := none,
            toasts := [Toast.error "Failed to load diary entries"], finalList := none }

/-- Diary's mount effect: its sole `useEffect` calls `fetchEntries()`. -/
def Diary.mount (user : Option String)
    (resp : Except String (List DiaryEntry)) : MountResult :=
  { sessionQueried := true,
    listIssued := (fetchEntries user resp).listIssued,
    navigatedTo := (fetchEntries user resp).navigatedTo }

/-- Row inserted into `diary_entries` by `createEntry`. -/
structure DiaryInsert where
  user_id : String
  title : String
  content : String
  location : String
  entry_date : String
deriving DecidableEq

/-- Observable effects of a create handler: the insert it may issue, its
toasts, the re-List it triggers on success, and any direct write of the local
list (the source handlers never write the list directly: they re-fetch). -/
structure CreateResult (ι α : Type) where
  insertIssued : Option ι
  toasts : List Toast
  refetchQuery : Option ListQuery
  setList : Option (List α)
deriving DecidableEq

/-- Diary's create-entry form fields. -/
structure DiaryForm where
  title : String
  content : String
  location : String
  entryDate : String
deriving DecidableEq

/-- Diary's `createEntry`: validate title and content, `getUser`, insert, and
on success re-run `fetchEntries` (which issues the same user-scoped List);
the handler itself never calls `setEntries`. -/
def createEntry (f : DiaryForm) (user : Option String)
    (insertOutcome : Except String Unit) : CreateResult DiaryInsert DiaryEntry :=
  if f.title = "" ∨ f.content = "" then
    { insertIssued := none, toasts := [Toast.error "Please fill in title and content"],
      refetchQuery := none, setList := none }
  else
    match user with
    | none =>
        { insertIssued := none, toasts := [Toast.error "Not authenticated"],
          refetchQuery := none, setList := none }
    | some uid =>
        let row : DiaryInsert :=
          { user_id := uid, title := f.title, content := f.content,
            location := f.location, entry_date := f.entryDate }
        match insertOutcome with
        | Except.ok _ =>
            { insertIssued := some row, toasts := [Toast.success "Entry created!"],
              refetchQuery := some (diaryListQuery uid), setList := none }
        | Except.error msg =>
            { insertIssued := some row,
              toasts := [Toast.error (if msg = "" then "Failed to create entry" else msg)],
              refetchQuery := none, setList := none }

/-- Observable effects of a delete handler: the Delete request (always
issued), its toasts and the local list after the handler runs. -/
structure DeleteResult (α : Type) where
  deleteIssued : DeleteQuery
  toasts : List Toast
  newList : List α
deriving DecidableEq

/-- Diary's `deleteEntry`: issue `from(diary_entries).delete().eq(id, x)`;
on success filter out entries whose id equals the deleted id; on error show a
generic toast and leave the list as it was. -/
def deleteEntry (entries : List DiaryEntry) (id : String)
    (outcome : Except String Unit) : DeleteResult DiaryEntry :=
  let q : DeleteQuery := { table := "diary_entries", eqId := id, eqUserId := none }
  match outcome with
  | Except.ok _ =>
      { deleteIssued := q, toasts := [Toast.success "Entry deleted"],
        newList := entries.filter (fun e => decide (e.id ≠ id)) }
  | Except.error _ =>
      { deleteIssued := q, toasts := [Toast.error "Failed to delete entry"],
        newList := entries }

/-- A trip row as the Trips page reads it. -/
structure Trip where
  id : String
  destination : String
  start_date : String
  end_date : String
  budget : ℚ
  travel_type : String
  status : String
  notes : String
deriving DecidableEq

/-- The List request the Trips page builds:
`from(trips).select(asterisk).eq(user_id, uid).order(start_date, descending)`. -/
def tripsListQuery (uid : String) : ListQuery :=
  { table := "trips", eqUserId := some uid, orderField := "start_date",
    ascending := false }

/-- Trips' `fetchTrips`: same shape as Diary's fetch, over the trips table. -/
def fetchTrips (user : Option String)
    (resp : Except String (List Trip)) : FetchResult Trip :=
  match user with
  | none =>
      { listIssued := none, navigatedTo := some "/auth", toasts := [], finalList := none }
  | some uid =>
      match resp with
      | Except.ok rows =>
          { listIssued := some (tripsListQuery uid), navigatedTo := none,
            toasts := [], finalList := some rows }
      | Except.error _ =>
          { listIssued := some (tripsListQuery uid), navigatedTo := none,
            toasts := [Toast.error "Failed to load trips"], finalList := none }

/-- Trips' mount effect: its sole `useEffect` calls `fetchTrips()`. -/
def Trips.mount (user : Option String)
    (resp : Except String (List Trip)) : MountResult :=
  { sessionQueried := true,
    listIssued := (fetchTrips user resp).listIssued,
    navigatedTo := (fetchTrips user resp).navigatedTo }

/-- Trips' `deleteTrip`: issue `from(trips).delete().eq(id, x)`; on success
filter the deleted id out of the local list; on error toast and keep it. -/
def deleteTrip (trips : List Trip) (id : String)
    (outcome : Except String Unit) : DeleteResult Trip :=
  let q : DeleteQuery := { table := "trips", eqId := id, eqUserId := none }
  match outcome with
  | Except.ok _ =>
      { deleteIssued := q, toasts := [Toast.success "Trip deleted"],
        newList := trips.filter (fun t => decide (t.id ≠ id)) }
  | Except.error _ =>
      { deleteIssued := q, toasts := [Toast.error "Failed to delete trip"],
        newList := trips }

/-- A saved destination row as the Discover page reads it. -/
structure Destination where
  id : String
  destination_name : String
  location : String
  description : String
  category : String
  notes : String
  created_at : String
deriving DecidableEq

/-- The List request the Discover page builds:
`from(saved_destinations).select(asterisk).eq(user_id, uid).order(created_at, descending)`. -/
def destinationsListQuery (uid : String) : ListQuery :=
  { table := "saved_destinations", eqUserId := some uid, orderField := "created_at",
    ascending := false }

/-- Discover's `fetchDestinations`: same shape as the other fetches. -/
def fetchDestinations (user : Option String)
    (resp : Except String (List Destination)) : FetchResult Destination :=
  match user with
  | none =>
      { listIssued := none, navigatedTo := some "/auth", toasts := [], finalList := none }
  | some uid =>
      match resp with
      | Except.ok rows =>
          { listIssued := some (destinationsListQuery uid), navigatedTo := none,
            toasts := [], finalList := some rows }
      | Except.error _ =>
          { listIssued := some (destinationsListQuery uid), navigatedTo := none,
            toasts := [Toast.error "Failed to load destinations"], finalList := none }

/-- Discover's mount effect: its sole `useEffect` calls `fetchDestinations()`. -/
def Discover.mount (user : Option String)
    (resp : Except String (List Destination)) : MountResult :=
  { sessionQueried := true,
    listIssued := (fetchDestinations user resp).listIssued,
    navigatedTo := (fetchDestinations user resp).navigatedTo }

/-- Row inserted into `saved_destinations` by `saveDestination`; `notes` is
always the empty string in the source. -/
structure DestinationInsert where
  user_id : String
  destination_name : String
  location : String
  description : String
  category : String
  notes : String
deriving DecidableEq

/-- Discover's save-destination form fields. -/
structure DiscoverForm where
  name : String
  location : String
  description : String
  category : String
deriving DecidableEq

/-- Discover's `saveDestination`: validate name and location, `getUser`,
insert, and on success re-run `fetchDestinations`; the handler never calls
`setDestinations` itself. -/
def saveDestination (f : DiscoverForm) (user : Option String)
    (insertOutcome : Except String Unit) : CreateResult DestinationInsert Destination :=
  if f.name = "" ∨ f.location = "" then
    { insertIssued := none, toasts := [Toast.error "Please fill in name and location"],
      refetchQuery := none, setList := none }
  else
    match user with
    | none =>
        { insertIssued := none, toasts := [Toast.error "Not authenticated"],
          refetchQuery := none, setList := none }
    | some uid =>
        let row : DestinationInsert :=
          { user_id := uid, destination_name := f.name, location := f.location,
            description := f.description, category := f.category, notes := "" }
        match insertOutcome with
        | Except.ok _ =>
            { insertIssued := some row, toasts := [Toast.success "Destination saved!"],
              refetchQuery := some (destinationsListQuery uid), setList := none }
        | Except.error msg =>
            { insertIssued := some row,
              toasts := [Toast.error (if msg = "" then "Failed to save destination" else msg)],
              refetchQuery := none, setList := none }

/-- Discover's `deleteDestination`: issue
`from(saved_destinations).delete().eq(id, x)`; on success filter the deleted
id out; on error toast and keep the list. -/
def deleteDestination (dests : List Destination) (id : String)
    (outcome : Except String Unit) : DeleteResult Destination :=
  let q : DeleteQuery := { table := "saved_destinations", eqId := id, eqUserId := none }
  match outcome with
  | Except.ok _ =>
      { deleteIssued := q, toasts := [Toast.success "Destination removed"],
        newList := dests.filter (fun d => decide (d.id ≠ id)) }
  | Except.error _ =>
      { deleteIssued := q, toasts := [Toast.error "Failed to remove destination"],
        newList := dests }

/-- Index's mount effect: `getSession`, then navigate to /auth when there is
no session; the Index page issues no List request. -/
def Index.mount (session : Option String) : MountResult :=
  { sessionQueried := true, listIssued := none,
    navigatedTo := match session with | none => some "/auth" | some _ => none }

/-- Observable effects of Index's sign-out handler. -/
structure SignOutResult where
  toasts : List Toast
  navigatedTo : Option String
deriving DecidableEq

/-- Index's `handleSignOut`: call `signOut()`; on error only toast the
failure; on success toast and navigate to /auth. -/
def handleSignOut (outcome : Except String Unit) : SignOutResult :=
  match outcome with
  | Except.error _ =>
      { toasts := [Toast.error "Failed to sign out"], navigatedTo := none }
  | Except.ok _ =>
      { toasts := [Toast.success "Signed out successfully"], navigatedTo := some "/auth" }

/-- Modelled from the spec: a stored row of the external data store, which is
not part of src/ (section 3: every row carries its owning user's identifier;
section 6 gives the per-table select/insert/delete contract). -/
structure StoreRow (α : Type) where
  user_id : String
  rowId : String
  payload : α
deriving DecidableEq

/-- Modelled from the spec: the external store's List operation (section 6:
`select * where user_id = X`), which returns exactly the stored rows whose
owner matches the request's user-identifier filter; an absent filter matches
every row. -/
def runListQuery {α : Type} (q : ListQuery) (rows : List (StoreRow α)) :
    List (StoreRow α) :=
  rows.filter (fun r =>
    match q.eqUserId with
    | none => true
    | some uid => decide (r.user_id = uid))

/-- Modelled from the spec: the store stub's Delete operation (section 4.2:
removes exactly one record by primary key; section 8: deleting a non-existent
id yields a failure), which fails with a StoreError when no stored row has
the requested id. -/
def runDeleteQuery {α : Type} (q : DeleteQuery) (rows : List (StoreRow α)) :
    Except String (List (StoreRow α)) :=
  if rows.any (fun r => decide (r.rowId = q.eqId)) then
    Except.ok (rows.filter (fun r => decide (r.rowId ≠ q.eqId)))
  else
    Except.error "no matching row"

/-- Forget a store reply's data, keeping only its success or failure, as the
delete handlers consume it. -/
def toOutcome {β : Type} (e : Except String β) : Except String Unit :=
  match e with
  | Except.ok _ => Except.ok ()
  | Except.error m => Except.error m

/-- `calculateDays` on two non-empty dates is the calendar-day difference:
the millisecond difference is an exact multiple of 86400000, so the ceiling
division cancels. -/
theorem calculateDays_some (a b : CivilDate) :
    calculateDays (some a) (some b) = epochDays b - epochDays a := by
  show ceilDivInt (getTime b - getTime a) 86400000 = epochDays b - epochDays a
  unfold ceilDivInt getTime
  rw [show -(epochDays b * 86400000 - epochDays a * 86400000)
        = (epochDays a - epochDays b) * 86400000 by ring]
  rw [Int.mul_ediv_cancel _ (by norm_num)]
  ring

/-- Filtering out the unique element carrying a given key shortens the list by
exactly one. -/
theorem length_filter_ne_key {α : Type} (f : α → String) (id : String) :
    ∀ l : List α, (l.map f).Nodup → id ∈ l.map f →
      (l.filter (fun a => decide (f a ≠ id))).length + 1 = l.length := by
  intro l
  induction l with
  | nil => intro _ h; simp at h
  | cons a t ih =>
    intro hnd hmem
    rw [List.map_cons, List.nodup_cons] at hnd
    by_cases hfa : f a = id
    · have ht : t.filter (fun x => decide (f x ≠ id)) = t := by
        apply List.filter_eq_self.mpr
        intro x hx
        have : f x ≠ id := by
          intro hcontra
          exact hnd.1 (by rw [hfa, ← hcontra]; exact List.mem_map_of_mem f hx)
        simpa using this
      rw [List.filter_cons_of_neg (by simpa using hfa), ht]
      simp
    · have hmem' : id ∈ t.map f := by
        rw [List.map_cons] at hmem
        rcases List.mem_cons.mp hmem with h | h
        · exact absurd h.symm hfa
        · exact h
      rw [List.filter_cons_of_pos (by simpa using hfa)]
      simp only [List.length_cons]
      rw [← ih hnd.2 hmem']

/-- Every row the store returns for a user-filtered List request belongs to
the filtered user. -/
theorem mem_runListQuery_user {α : Type} (uid : String) (q : ListQuery)
    (rows : List (StoreRow α)) (hq : q.eqUserId = some uid) :
    ∀ r ∈ runListQuery q rows, r.user_id = uid := by
  intro r hr
  unfold runListQuery at hr
  rw [hq] at hr
  have := (List.mem_filter.mp hr).2
  simpa using this

/-- A Delete request whose id matches no stored row fails in the store stub. -/
theorem runDeleteQuery_miss {α : Type} (q : DeleteQuery) (rows : List (StoreRow α))
    (h : q.eqId ∉ rows.map StoreRow.rowId) :
    runDeleteQuery q rows = Except.error "no matching row" := by
  unfold runDeleteQuery
  rw [if_neg]
  intro hany
  rcases List.any_eq_true.mp hany with ⟨r, hr, hid⟩
  exact h (by
    have : r.rowId = q.eqId := by simpa using hid
    rw [← this]
    exact List.mem_map_of_mem StoreRow.rowId hr)

/-- Claim C1 (amended): every page that fetches data on mount (Diary, Trips,
Discover), when the session query returns no active user, issues no List
request and navigates to "/auth"; the Index page likewise queries the session
on mount and redirects to "/auth" with no session (it issues no List at all);
but the PlanTrip page invokes no session guard on mount: it queries no
session, fetches nothing, and navigates nowhere. -/
theorem mount_guard_redirects_without_fetch :
    ∀ (r1 : Except String (List DiaryEntry)) (r2 : Except String (List Trip))
      (r3 : Except String (List Destination)),
      Diary.mount none r1 =
        { sessionQueried := true, listIssued := none, navigatedTo := some "/auth" }
    ∧ Trips.mount none r2 =
        { sessionQueried := true, listIssued := none, navigatedTo := some "/auth" }
    ∧ Discover.mount none r3 =
        { sessionQueried := true, listIssued := none, navigatedTo := some "/auth" }
    ∧ Index.mount none =
        { sessionQueried := true, listIssued := none, navigatedTo := some "/auth" }
    ∧ PlanTrip.mount =
        { sessionQueried := false, listIssued := none, navigatedTo := none } := by
  intro r1 r2 r3
  exact ⟨rfl, rfl, rfl, rfl, rfl⟩

/-- Claim C1 counterexample: the PlanTrip page does not invoke the session
guard on mount and does not navigate to "/auth", refuting the claim that
every page, including PlanTrip, runs the guard on mount. -/
theorem planTrip_mount_no_guard :
    PlanTrip.mount.sessionQueried = false
    ∧ PlanTrip.mount.navigatedTo ≠ some "/auth" := by
  exact ⟨rfl, by simp [PlanTrip.mount]⟩

/-- Claim C2 (amended): the sign-out handler shows a notification for both
outcomes, but navigates to "/auth" only when the external signOut call
succeeds; on failure it shows the failure notification and stays put. -/
theorem handleSignOut_navigates_only_on_success :
    ∀ m : String,
      handleSignOut (Except.ok ()) =
        { toasts := [Toast.success "Signed out successfully"], navigatedTo := some "/auth" }
    ∧ handleSignOut (Except.error m) =
        { toasts := [Toast.error "Failed to sign out"], navigatedTo := none } := by
  intro m
  exact ⟨rfl, rfl⟩

/-- Claim C2 counterexample: when the external signOut call fails, the handler
shows only the failure toast and performs no navigation, refuting the claim
that the redirect happens for every outcome. -/
theorem handleSignOut_failure_no_redirect :
    (handleSignOut (Except.error "boom")).navigatedTo = none
    ∧ (handleSignOut (Except.error "boom")).navigatedTo ≠ some "/auth"
    ∧ (handleSignOut (Except.error "boom")).toasts = [Toast.error "Failed to sign out"] := by
  exact ⟨rfl, by simp [handleSignOut], rfl⟩

/-- Claim C4: the computed day count for start 2024-01-01 and end 2024-01-05
is 4, and whenever the end date is chronologically equal to or before the
start date, `handleGetRecommendations` invokes no external function and shows
a validation toast. -/
theorem calculateDays_value_and_date_rejection :
    calculateDays (some ⟨2024, 1, 1⟩) (some ⟨2024, 1, 5⟩) = 4
    ∧ ∀ (s : PlanTripState) (resp : Except String String) (d1 d2 : CivilDate),
        s.startDate = some d1 → s.endDate = some d2 → epochDays d2 ≤ epochDays d1 →
        (handleGetRecommendations s resp).invocation = none
        ∧ ∃ m, (handleGetRecommendations s resp).toasts = [Toast.error m] := by
  constructor
  · decide
  · intro s resp d1 d2 h1 h2 hle
    have hdays : calculateDays s.startDate s.endDate ≤ 0 := by
      rw [h1, h2, calculateDays_some]
      omega
    unfold handleGetRecommendations
    by_cases hv : s.destination = "" ∨ s.budget = "" ∨ s.travelType = ""
        ∨ s.selectedInterests.length = 0
    · rw [if_pos hv]
      exact ⟨rfl, _, rfl⟩
    · rw [if_neg hv]
      show ((if calculateDays s.startDate s.endDate ≤ 0 then _ else _ : RecResult)).invocation
            = none ∧ _
      rw [if_pos hdays]
      exact ⟨rfl, _, rfl⟩

/-- Claim C4 witness: a concrete form state whose dates are reversed is
rejected without an invocation. -/
theorem calculateDays_date_rejection_witness :
    (handleGetRecommendations
      { destination := "Tokyo, Japan", startDate := some ⟨2024, 1, 5⟩,
        endDate := some ⟨2024, 1, 1⟩, budget := "1000", travelType := "solo",
        selectedInterests := ["Food"], aiRecommendations := "" }
      (Except.ok "x")).invocation = none := by
  exact (calculateDays_value_and_date_rejection.2 _ (Except.ok "x")
    ⟨2024, 1, 5⟩ ⟨2024, 1, 1⟩ rfl rfl (by decide)).1

/-- Claim C3: with a populated recommendation and non-empty destination,
start date, end date and budget, and a signed-in user, the Save Trip action
issues exactly one insert into the trips store whose notes field is the
current recommendation text and whose status is "planned", and on insert
success navigates to "/trips". -/
theorem handleSaveTrip_saves_recommendation :
    ∀ (s : PlanTripState) (uid : String) (outcome : Except String Unit),
      s.destination ≠ "" → s.startDate ≠ none → s.endDate ≠ none → s.budget ≠ "" →
      s.aiRecommendations ≠ "" →
      (handleSaveTrip s (some uid) outcome).insertIssued =
        some { user_id := uid, destination := s.destination, start_date := s.startDate,
               end_date := s.endDate, budget := parseFloat s.budget,
               travel_type := s.travelType, notes := s.aiRecommendations,
               status := "planned" }
      ∧ (outcome = Except.ok () →
          (handleSaveTrip s (some uid) outcome).navigatedTo = some "/trips") := by
  intro s uid outcome hd hs he hb _
  unfold handleSaveTrip
  rw [if_neg (by push_neg; exact ⟨hd, hs, he, hb⟩)]
  cases outcome with
  | ok u => exact ⟨rfl, fun _ => rfl⟩
  | error msg => exact ⟨rfl, fun hcontra => nomatch hcontra⟩

/-- Claim C3 witness: a concrete populated form saves one trip row carrying
the recommendation text with status "planned" and navigates to "/trips". -/
theorem handleSaveTrip_saves_recommendation_witness :
    (handleSaveTrip
      { destination := "Tokyo, Japan", startDate := some ⟨2024, 1, 1⟩,
        endDate := some ⟨2024, 1, 5⟩, budget := "1000", travelType := "solo",
        selectedInterests := ["Food"], aiRecommendations := "Day 1: temples" }
      (some "u1") (Except.ok ())).insertIssued =
      some { user_id := "u1", destination := "Tokyo, Japan",
             start_date := some ⟨2024, 1, 1⟩, end_date := some ⟨2024, 1, 5⟩,
             budget := parseFloat "1000", travel_type := "solo",
             notes := "Day 1: temples", status := "planned" }
    ∧ (handleSaveTrip
      { destination := "Tokyo, Japan", startDate := some ⟨2024, 1, 1⟩,
        endDate := some ⟨2024, 1, 5⟩, budget := "1000", travelType := "solo",
        selectedInterests := ["Food"], aiRecommendations := "Day 1: temples" }
      (some "u1") (Except.ok ())).navigatedTo = some "/trips" := by
  have h := handleSaveTrip_saves_recommendation
    { destination := "Tokyo, Japan", startDate := some ⟨2024, 1, 1⟩,
      endDate := some ⟨2024, 1, 5⟩, budget := "1000", travelType := "solo",
      selectedInterests := ["Food"], aiRecommendations := "Day 1: temples" }
    "u1" (Except.ok ())
    (by decide) (by decide) (by decide) (by decide) (by decide)
  exact ⟨h.1, h.2 rfl⟩

/-- Claim C6: whenever destination, budget or travel type is empty, no
interest is selected, or the computed day count is not strictly positive, the
Get Recommendations action makes no external invocation and shows a
validation toast; when all preconditions hold it invokes the function exactly
once with the destination, parsed numeric budget, travel type, selected
interests and day count. -/
theorem getRecommendations_validation_gate :
    ∀ (s : PlanTripState) (resp : Except String String),
      ((s.destination = "" ∨ s.budget = "" ∨ s.travelType = ""
          ∨ s.selectedInterests.length = 0
          ∨ calculateDays s.startDate s.endDate ≤ 0) →
        (handleGetRecommendations s resp).invocation = none
        ∧ ∃ m, (handleGetRecommendations s resp).toasts = [Toast.error m])
      ∧ (s.destination ≠ "" → s.budget ≠ "" → s.travelType ≠ "" →
          s.selectedInterests.length ≠ 0 →
          0 < calculateDays s.startDate s.endDate →
          (handleGetRecommendations s resp).invocation =
            some { destination := s.destination, budget := parseFloat s.budget,
                   travelType := s.travelType, interests := s.selectedInterests,
                   days := calculateDays s.startDate s.endDate }) := by
  intro s resp
  constructor
  · intro hbad
    unfold handleGetRecommendations
    by_cases hv : s.destination = "" ∨ s.budget = "" ∨ s.travelType = ""
        ∨ s.selectedInterests.length = 0
    · rw [if_pos hv]
      exact ⟨rfl, _, rfl⟩
    · have hdays : calculateDays s.startDate s.endDate ≤ 0 := by tauto
      rw [if_neg hv]
      show ((if calculateDays s.startDate s.endDate ≤ 0 then _ else _ : RecResult)).invocation
            = none ∧ _
      rw [if_pos hdays]
      exact ⟨rfl, _, rfl⟩
  · intro h1 h2 h3 h4 h5
    unfold handleGetRecommendations
    rw [if_neg (by push_neg; exact ⟨h1, h2, h3, h4⟩)]
    show ((if calculateDays s.startDate s.endDate ≤ 0 then _ else _ : RecResult)).invocation = _
    rw [if_neg (by omega)]
    cases resp <;> rfl

/-- Claim C6 witness: the scenario form (Tokyo, 1000, solo, Food and Culture,
four days) invokes the function once with the expected payload. -/
theorem getRecommendations_validation_gate_witness :
    (handleGetRecommendations
      { destination := "Tokyo, Japan", startDate := some ⟨2024, 1, 1⟩,
        endDate := some ⟨2024, 1, 5⟩, budget := "1000", travelType := "solo",
        selectedInterests := ["Food", "Culture"], aiRecommendations := "" }
      (Except.ok "Day 1")).invocation =
      some { destination := "Tokyo, Japan", budget := parseFloat "1000",
             travelType := "solo", interests := ["Food", "Culture"],
             days := calculateDays (some ⟨2024, 1, 1⟩) (some ⟨2024, 1, 5⟩) } := by
  exact (getRecommendations_validation_gate
    { destination := "Tokyo, Japan", startDate := some ⟨2024, 1, 1⟩,
      endDate := some ⟨2024, 1, 5⟩, budget := "1000", travelType := "solo",
      selectedInterests := ["Food", "Culture"], aiRecommendations := "" }
    (Except.ok "Day 1")).2
    (by decide) (by decide) (by decide) (by decide) (by decide)

/-- Claim C5: on store success every delete handler replaces the local list
by the previous list with exactly the items of the deleted id filtered out
(one item when ids are distinct); on store error it shows a failure toast and
leaves the list unchanged; and deleting an id absent from the store (whose
stub rejects such a delete) yields the failure toast and an unchanged list. -/
theorem delete_effect_on_local_list :
    ∀ (entries : List DiaryEntry) (trips : List Trip) (dests : List Destination)
      (id m : String) (store : List (StoreRow Unit)),
      (deleteEntry entries id (Except.ok ())).newList =
        entries.filter (fun e => decide (e.id ≠ id))
      ∧ ((entries.map DiaryEntry.id).Nodup → id ∈ entries.map DiaryEntry.id →
          (deleteEntry entries id (Except.ok ())).newList.length + 1 = entries.length)
      ∧ (deleteEntry entries id (Except.error m)).toasts = [Toast.error "Failed to delete entry"]
      ∧ (deleteEntry entries id (Except.error m)).newList = entries
      ∧ (deleteTrip trips id (Except.ok ())).newList =
        trips.filter (fun t => decide (t.id ≠ id))
      ∧ ((trips.map Trip.id).Nodup → id ∈ trips.map Trip.id →
          (deleteTrip trips id (Except.ok ())).newList.length + 1 = trips.length)
      ∧ (deleteTrip trips id (Except.error m)).toasts = [Toast.error "Failed to delete trip"]
      ∧ (deleteTrip trips id (Except.error m)).newList = trips
      ∧ (deleteDestination dests id (Except.ok ())).newList =
        dests.filter (fun d => decide (d.id ≠ id))
      ∧ ((dests.map Destination.id).Nodup → id ∈ dests.map Destination.id →
          (deleteDestination dests id (Except.ok ())).newList.length + 1 = dests.length)
      ∧ (deleteDestination dests id (Except.error m)).toasts =
        [Toast.error "Failed to remove destination"]
      ∧ (deleteDestination dests id (Except.error m)).newList = dests
      ∧ (id ∉ store.map StoreRow.rowId →
          (deleteEntry entries id
            (toOutcome (runDeleteQuery ⟨"diary_entries", id, none⟩ store))).toasts =
            [Toast.error "Failed to delete entry"]
          ∧ (deleteEntry entries id
            (toOutcome (runDeleteQuery ⟨"diary_entries", id, none⟩ store))).newList = entries) := by
  intro entries trips dests id m store
  refine ⟨rfl, ?_, rfl, rfl, rfl, ?_, rfl, rfl, rfl, ?_, rfl, rfl, ?_⟩
  · intro hnd hmem
    exact length_filter_ne_key DiaryEntry.id id entries hnd hmem
  · intro hnd hmem
    exact length_filter_ne_key Trip.id id trips hnd hmem
  · intro hnd hmem
    exact length_filter_ne_key Destination.id id dests hnd hmem
  · intro hmiss
    rw [runDeleteQuery_miss ⟨"diary_entries", id, none⟩ store hmiss]
    exact ⟨rfl, rfl⟩

/-- Claim C5 witness: deleting id "a" from a two-entry list with distinct ids
removes exactly one entry; deleting id "z" against an empty store fails and
leaves the local list unchanged. -/
theorem delete_effect_on_local_list_witness :
    (deleteEntry [⟨"a", "t", "c", "d", "l", "ts"⟩, ⟨"b", "t", "c", "d", "l", "ts"⟩]
      "a" (Except.ok ())).newList.length + 1 = 2
    ∧ (deleteEntry [⟨"a", "t", "c", "d", "l", "ts"⟩] "z"
        (toOutcome (runDeleteQuery ⟨"diary_entries", "z", none⟩
          ([] : List (StoreRow Unit))))).newList = [⟨"a", "t", "c", "d", "l", "ts"⟩] := by
  have h1 := delete_effect_on_local_list
    [⟨"a", "t", "c", "d", "l", "ts"⟩, ⟨"b", "t", "c", "d", "l", "ts"⟩] [] [] "a" "m" []
  have h2 := delete_effect_on_local_list
    [⟨"a", "t", "c", "d", "l", "ts"⟩] [] [] "z" "m" ([] : List (StoreRow Unit))
  refine ⟨h1.2.1 (by decide) (by decide), ?_⟩
  exact (h2.2.2.2.2.2.2.2.2.2.2.2.2 (by decide)).2

/-- Claim C7: after a successful insert, the Diary and Discover pages refresh
by issuing the same full user-scoped List request as on mount, and neither
create handler ever writes the local list directly (no in-memory append), on
any branch. -/
theorem insert_success_triggers_full_relist :
    ∀ (f : DiaryForm) (g : DiscoverForm) (uid : String),
      (f.title ≠ "" → f.content ≠ "" →
        (createEntry f (some uid) (Except.ok ())).refetchQuery = some (diaryListQuery uid))
      ∧ (∀ (user : Option String) (outcome : Except String Unit),
          (createEntry f user outcome).setList = none)
      ∧ (g.name ≠ "" → g.location ≠ "" →
        (saveDestination g (some uid) (Except.ok ())).refetchQuery =
          some (destinationsListQuery uid))
      ∧ (∀ (user : Option String) (outcome : Except String Unit),
          (saveDestination g user outcome).setList = none) := by
  intro f g uid
  refine ⟨?_, ?_, ?_, ?_⟩
  · intro ht hc
    unfold createEntry
    rw [if_neg (by push_neg; exact ⟨ht, hc⟩)]
  · intro user outcome
    unfold createEntry
    by_cases hv : f.title = "" ∨ f.content = ""
    · rw [if_pos hv]
    · rw [if_neg hv]
      cases user with
      | none => rfl
      | some uid => cases outcome <;> rfl
  · intro hn hl
    unfold saveDestination
    rw [if_neg (by push_neg; exact ⟨hn, hl⟩)]
  · intro user outcome
    unfold saveDestination
    by_cases hv : g.name = "" ∨ g.location = ""
    · rw [if_pos hv]
    · rw [if_neg hv]
      cases user with
      | none => rfl
      | some uid => cases outcome <;> rfl

/-- Claim C7 witness: a concrete valid diary form and destination form, on
insert success, trigger the user-scoped re-List and write no list directly. -/
theorem insert_success_triggers_full_relist_witness :
    (createEntry ⟨"Day in Tokyo", "Great food", "Tokyo", "2024-01-01"⟩ (some "u1")
      (Except.ok ())).refetchQuery = some (diaryListQuery "u1")
    ∧ (saveDestination ⟨"Hidden temple", "Kyoto, Japan", "", ""⟩ (some "u1")
      (Except.ok ())).refetchQuery = some (destinationsListQuery "u1")
    ∧ (createEntry ⟨"Day in Tokyo", "Great food", "Tokyo", "2024-01-01"⟩ (some "u1")
      (Except.ok ())).setList = none := by
  have h := insert_success_triggers_full_relist
    ⟨"Day in Tokyo", "Great food", "Tokyo", "2024-01-01"⟩
    ⟨"Hidden temple", "Kyoto, Japan", "", ""⟩ "u1"
  exact ⟨h.1 (by decide) (by decide), h.2.2.1 (by decide) (by decide),
    h.2.1 (some "u1") (Except.ok ())⟩

/-- Claim C8: every List request a page issues for a signed-in user carries a
user-identifier equality filter equal to that session user, so a correctly
configured store returns only rows owned by that user. -/
theorem list_requests_scoped_to_session_user :
    ∀ (uid : String) (r1 : Except String (List DiaryEntry))
      (r2 : Except String (List Trip)) (r3 : Except String (List Destination))
      (rows : List (StoreRow Unit)),
      (fetchEntries (some uid) r1).listIssued = some (diaryListQuery uid)
      ∧ (fetchTrips (some uid) r2).listIssued = some (tripsListQuery uid)
      ∧ (fetchDestinations (some uid) r3).listIssued = some (destinationsListQuery uid)
      ∧ (diaryListQuery uid).eqUserId = some uid
      ∧ (tripsListQuery uid).eqUserId = some uid
      ∧ (destinationsListQuery uid).eqUserId = some uid
      ∧ (∀ r ∈ runListQuery (diaryListQuery uid) rows, r.user_id = uid)
      ∧ (∀ r ∈ runListQuery (tripsListQuery uid) rows, r.user_id = uid)
      ∧ (∀ r ∈ runListQuery (destinationsListQuery uid) rows, r.user_id = uid) := by
  intro uid r1 r2 r3 rows
  refine ⟨?_, ?_, ?_, rfl, rfl, rfl, ?_, ?_, ?_⟩
  · cases r1 <;> rfl
  · cases r2 <;> rfl
  · cases r3 <;> rfl
  · exact mem_runListQuery_user uid (diaryListQuery uid) rows rfl
  · exact mem_runListQuery_user uid (tripsListQuery uid) rows rfl
  · exact mem_runListQuery_user uid (destinationsListQuery uid) rows rfl

/-- Claim C8 witness: for user "u1" and a store holding rows of "u1" and
"u2", the issued diary request filters by "u1" and a concrete row of the
filtered result belongs to "u1". -/
theorem list_requests_scoped_witness :
    (fetchEntries (some "u1") (Except.ok [])).listIssued = some (diaryListQuery "u1")
    ∧ StoreRow.user_id (⟨"u1", "x", ()⟩ : StoreRow Unit) = "u1" := by
  have h := list_requests_scoped_to_session_user "u1" (Except.ok []) (Except.ok [])
    (Except.ok []) [⟨"u1", "x", ()⟩, ⟨"u2", "y", ()⟩]
  exact ⟨h.1, h.2.2.2.2.2.2.1 ⟨"u1", "x", ()⟩ (by decide)⟩

/-- Claim C9: every Delete request built by the Trips, Diary and Discover
pages constrains only the primary key: it equals a record determined by the
id alone, with no user-identifier filter, whatever the session or store
outcome, so deletion scoping rests entirely on the external store. -/
theorem delete_requests_constrain_only_id :
    ∀ (entries : List DiaryEntry) (trips : List Trip) (dests : List Destination)
      (id : String) (o1 o2 o3 : Except String Unit),
      (deleteEntry entries id o1).deleteIssued =
        { table := "diary_entries", eqId := id, eqUserId := none }
      ∧ (deleteTrip trips id o2).deleteIssued =
        { table := "trips", eqId := id, eqUserId := none }
      ∧ (deleteDestination dests id o3).deleteIssued =
        { table := "saved_destinations", eqId := id, eqUserId := none } := by
  intro entries trips dests id o1 o2 o3
  refine ⟨?_, ?_, ?_⟩
  · cases o1 <;> rfl
  · cases o2 <;> rfl
  · cases o3 <;> rfl

/-- Claim C10: the Save Trip action validates only presence of destination,
dates and budget: whenever those four are non-empty, even with an empty
travel type or an end date not after the start date, no validation toast is
shown and the insert is issued with exactly those values. -/
theorem saveTrip_validates_only_presence :
    ∀ (s : PlanTripState) (uid : String),
      s.destination ≠ "" → s.startDate ≠ none → s.endDate ≠ none → s.budget ≠ "" →
      (handleSaveTrip s (some uid) (Except.ok ())).insertIssued =
        some { user_id := uid, destination := s.destination, start_date := s.startDate,
               end_date := s.endDate, budget := parseFloat s.budget,
               travel_type := s.travelType, notes := s.aiRecommendations,
               status := "planned" }
      ∧ (handleSaveTrip s (some uid) (Except.ok ())).toasts =
        [Toast.success "Trip saved successfully!"] := by
  intro s uid hd hs he hb
  unfold handleSaveTrip
  rw [if_neg (by push_neg; exact ⟨hd, hs, he, hb⟩)]
  exact ⟨rfl, rfl⟩

/-- Claim C10 witness: a form with an empty travel type and an end date four
days before the start date is persisted anyway, with a non-positive computed
duration and a success toast. -/
theorem saveTrip_validates_only_presence_witness :
    (handleSaveTrip
      { destination := "Tokyo, Japan", startDate := some ⟨2024, 1, 5⟩,
        endDate := some ⟨2024, 1, 1⟩, budget := "500", travelType := "",
        selectedInterests := [], aiRecommendations := "" }
      (some "u1") (Except.ok ())).insertIssued =
      some { user_id := "u1", destination := "Tokyo, Japan",
             start_date := some ⟨2024, 1, 5⟩, end_date := some ⟨2024, 1, 1⟩,
             budget := parseFloat "500", travel_type := "", notes := "",
             status := "planned" }
    ∧ calculateDays (some ⟨2024, 1, 5⟩) (some ⟨2024, 1, 1⟩) ≤ 0 := by
  have h := saveTrip_validates_only_presence
    { destination := "Tokyo, Japan", startDate := some ⟨2024, 1, 5⟩,
      endDate := some ⟨2024, 1, 1⟩, budget := "500", travelType := "",
      selectedInterests := [], aiRecommendations := "" }
    "u1" (by decide) (by decide) (by decide) (by decide)
  exact ⟨h.1, by decide⟩
